import Mathlib

/-!
Verification of the process orchestrator in `dashboard/run.py` of the
homelab-monitor repository. The Python source is shallowly embedded:
pure data flow becomes Lean functions, the asyncio control flow of
`main` becomes explicit event traces, and exceptions become `Except`.
Time (the event-loop clock used by `wait_for_http`) is modelled by
rational numbers that advance only at the `asyncio.sleep` suspension
point of the polling loop, with each poll itself taking no time.
-/

namespace HomelabRun

/-! ## StreamPiper (`_pipe_stream`, lines 35-47)

A stream is the list of decoded lines that successive `readline` calls
return before end-of-stream (an empty read, modelled by the end of the
list, breaks the loop). Each line is right-stripped and written to the
tee sink followed by a newline, as in `tee_file.write(text + "\n")`. -/

/-- Python `str.rstrip()` with no argument: drop trailing whitespace. -/
def rstrip_py (s : String) : String :=
  String.mk ((s.data.reverse.dropWhile Char.isWhitespace).reverse)

/-- The sequence of writes `_pipe_stream` makes to the tee sink, one per
line read, until the empty read that ends the stream. -/
def pipe_stream : List String → List String
  | [] => []
  | line :: rest => (rstrip_py line ++ "\n") :: pipe_stream rest

/-! ## ProcessHandle termination (`terminate_process`, lines 68-81)

A child process as `terminate_process` observes it: `returncode` is the
exit status already recorded on the asyncio handle (`none` while the
child has not been reaped through a wait), `pidValid` is false when the
OS no longer knows the pid so that sending a signal raises
`ProcessLookupError`, `respondsToTerm` says whether the child exits
within the grace period once SIGTERM is delivered, and `exitCode` is
the status observed in that case. -/

structure PyProc where
  returncode : Option Int
  pidValid : Bool
  respondsToTerm : Bool
  exitCode : Int
deriving DecidableEq, Repr

/-- Observable steps of one `terminate_process` call. -/
inductive TermEv
  | alreadyExited
  | sentTerm
  | lookupFailed
  | waitedExit (c : Int)
  | killedAfterTimeout
deriving DecidableEq, Repr

/-- The primitive `proc.terminate()`: raises `ProcessLookupError`
(modelled as `Except.error`) when the pid is gone. -/
def py_terminate (p : PyProc) : Except Unit PyProc :=
  if p.pidValid then Except.ok p else Except.error ()

/-- `terminate_process` from lines 68-81. Returns early when the handle
already records an exit status; catches `ProcessLookupError` from
`proc.terminate()` and returns; otherwise waits up to `grace` for the
child (success sets `returncode`), and on timeout calls `proc.kill()`
and returns at once, with no further wait, so `returncode` stays unset
on that path. The `grace` argument only scales real time, which the
`respondsToTerm` field abstracts, so it does not appear on the right. -/
def terminate_process (p : PyProc) (grace : ℚ) : Except Unit (List TermEv × PyProc) :=
  if p.returncode.isSome then
    Except.ok ([TermEv.alreadyExited], p)
  else
    match py_terminate p with
    | Except.error _ => Except.ok ([TermEv.sentTerm, TermEv.lookupFailed], p)
    | Except.ok _ =>
      if p.respondsToTerm then
        Except.ok ([TermEv.sentTerm, TermEv.waitedExit p.exitCode],
          { p with returncode := some p.exitCode })
      else
        Except.ok ([TermEv.sentTerm, TermEv.killedAfterTimeout], p)

/-- The handle state after a `terminate_process` call. -/
def term_after (p : PyProc) (grace : ℚ) : PyProc :=
  match terminate_process p grace with
  | Except.ok (_, q) => q
  | Except.error _ => p

/-- True when the call returned normally instead of raising. -/
def term_ok (r : Except Unit (List TermEv × PyProc)) : Bool :=
  match r with
  | Except.ok _ => true
  | Except.error _ => false

/-! ## HealthProbe (`wait_for_http`, lines 83-95)

One poll either yields an HTTP status (`ok s`) or raises `URLError`
(connection refused, timeout), which line 92 swallows. The loop polls
while the clock is strictly below the deadline, returns true on the
first 2xx status, and otherwise sleeps `interval` and retries. `fuel`
bounds the recursion; any fuel at least the number of polls the
deadline admits gives the behaviour of the unbounded Python loop. -/

inductive PollOutcome
  | ok (status : ℕ)
  | urlError
deriving DecidableEq, Repr

/-- The 2xx test of line 90: `200 <= resp.status < 300`. -/
def is2xx (s : ℕ) : Bool := 200 ≤ s && s < 300

/-- Whether one poll outcome counts as a healthy response. -/
def poll2xx : PollOutcome → Bool
  | PollOutcome.ok s => is2xx s
  | PollOutcome.urlError => false

/-- `wait_for_http` with the clock made explicit: `now` starts at 0 and
the deadline is `timeout`, matching `end = loop.time() + timeout`. -/
def wait_for_http (poll : ℚ → PollOutcome) (timeout interval : ℚ) :
    ℕ → ℚ → Bool
  | 0, _ => false
  | fuel + 1, now =>
    if now < timeout then
      match poll now with
      | PollOutcome.ok s =>
        if is2xx s then true
        else wait_for_http poll timeout interval fuel (now + interval)
      | PollOutcome.urlError =>
        wait_for_http poll timeout interval fuel (now + interval)
    else false

/-- An endpoint that starts answering 200 once three polling intervals
have elapsed and refuses connections before that. -/
def probeAfter3 (interval : ℚ) : ℚ → PollOutcome :=
  fun t => if 3 * interval ≤ t then PollOutcome.ok 200 else PollOutcome.urlError

/-! ## Supervisor startup and run trace (`main`, lines 97-226)

The events of one run of `main`, in program order: spawning the API,
the health probe with its outcome, the warning printed when the probe
returns false (line 152), spawning the TUI, and entering the wait
phase of lines 168-194. The stop signal handler (lines 123-124) only
sets `stop_event`; it runs at some await point of the event loop,
which `deliver_sig` models by inserting a `sigStop` event at an
arbitrary position of the trace (or after the whole startup, when the
signal arrives during the wait loop). -/

inductive Ev
  | sigStop
  | spawnApi
  | probeApi (ok : Bool)
  | warnUnhealthy
  | spawnTui
  | enterWait
deriving DecidableEq, Repr

/-- Program-order events of the startup phase of `main` for a given
configuration (`noApi`, `noUi` are the `--no-api` and `--no-ui` flags)
and health-probe outcome. Nothing in lines 133-166 consults the stop
flag, so the trace does not depend on when a signal arrives. -/
def startup_events (noApi noUi probeOk : Bool) : List Ev :=
  (if noApi then []
   else [Ev.spawnApi, Ev.probeApi probeOk] ++
     (if probeOk then [] else [Ev.warnUnhealthy])) ++
  (if noUi then [] else [Ev.spawnTui]) ++
  [Ev.enterWait]

/-- Insert the `sigStop` event at await point `k` of the trace, or
after the end when the signal arrives once the wait loop is running;
`none` means no signal is delivered during the run. -/
def deliver_sig : Option ℕ → List Ev → List Ev
  | none, es => es
  | some 0, es => Ev.sigStop :: es
  | some (_ + 1), [] => [Ev.sigStop]
  | some (k + 1), e :: es => e :: deliver_sig (some k) es

/-- A whole run of `main` up to the wait loop, with an optional stop
signal delivered at an arbitrary await point. -/
def run_trace (noApi noUi probeOk : Bool) (sig : Option ℕ) : List Ev :=
  deliver_sig sig (startup_events noApi noUi probeOk)

/-- True when some spawn event occurs after a `sigStop` event (the
boolean argument carries whether the stop flag is already set). -/
def spawn_after_stop : Bool → List Ev → Bool
  | _, [] => false
  | _, Ev.sigStop :: es => spawn_after_stop true es
  | stopped, Ev.spawnApi :: es => stopped || spawn_after_stop stopped es
  | stopped, Ev.spawnTui :: es => stopped || spawn_after_stop stopped es
  | stopped, Ev.probeApi _ :: es => spawn_after_stop stopped es
  | stopped, Ev.warnUnhealthy :: es => spawn_after_stop stopped es
  | stopped, Ev.enterWait :: es => spawn_after_stop stopped es

/-- True when some spawn event occurs after the `enterWait` event (the
boolean argument carries whether the wait loop has been entered). -/
def spawn_after_wait : Bool → List Ev → Bool
  | _, [] => false
  | inWait, Ev.sigStop :: es => spawn_after_wait inWait es
  | inWait, Ev.spawnApi :: es => inWait || spawn_after_wait inWait es
  | inWait, Ev.spawnTui :: es => inWait || spawn_after_wait inWait es
  | inWait, Ev.probeApi _ :: es => spawn_after_wait inWait es
  | inWait, Ev.warnUnhealthy :: es => spawn_after_wait inWait es
  | _, Ev.enterWait :: es => spawn_after_wait true es

/-! ## The Running-state wait set (lines 168-194)

Which conditions `main` actually suspends on once startup is done.
Lines 172-174 create one wait task per enabled role plus the stop
task; lines 179-182 then await only the single role task when exactly
one role is enabled, and only the else branch of lines 183-194 awaits
the set of live tasks (`asyncio.wait` with FIRST_COMPLETED). -/

inductive WaitCond
  | apiExit
  | tuiExit
  | stopReq
deriving DecidableEq, Repr

/-- The set of conditions the code suspends on, per configuration,
following the branch structure of lines 179-194 exactly. -/
def wait_conditions (noApi noUi : Bool) : List WaitCond :=
  if noApi && !noUi then [WaitCond.tuiExit]
  else if !noApi && noUi then [WaitCond.apiExit]
  else
    (if !noApi then [WaitCond.apiExit] else []) ++
    (if !noUi then [WaitCond.tuiExit] else []) ++
    [WaitCond.stopReq]

/-- Modelled from the spec wording of `Starting → Running`: one
wait-condition per enabled child plus one for the external stop
request, in every configuration. Stated only to be compared with
`wait_conditions`, the definition read off the code. -/
def claimed_wait_conditions (noApi noUi : Bool) : List WaitCond :=
  (if !noApi then [WaitCond.apiExit] else []) ++
  (if !noUi then [WaitCond.tuiExit] else []) ++
  [WaitCond.stopReq]

/-! ## Shutdown sequence (the finally block, lines 196-221)

At shutdown entry each role handle is `none` (never spawned),
`some none` (spawned and still running: `returncode is None`) or
`some (some c)` (spawned and already exited with status `c`). The
block terminates the TUI first when it is present and still running,
then the API the same way, then cancels outstanding tasks. -/

inductive ShutEv
  | termTui
  | termApi
  | cancelTasks
  | allDone
deriving DecidableEq, Repr

/-- Ordered actions of the finally block, lines 196-221. -/
def shutdown_seq (tui api : Option (Option Int)) : List ShutEv :=
  (match tui with
   | some none => [ShutEv.termTui]
   | _ => []) ++
  (match api with
   | some none => [ShutEv.termApi]
   | _ => []) ++
  [ShutEv.cancelTasks, ShutEv.allDone]

/-! ## Exit code (lines 111-116 and normal completion) -/

/-- What ended the run: an external stop signal or a child exiting. -/
inductive Trigger
  | externalSignal
  | apiExited
  | tuiExited
deriving DecidableEq, Repr

/-- The process exit status of the orchestrator: `sys.exit(1)` when an
enabled role has no venv interpreter (lines 111-116), else 0 on normal
completion of `main`, whatever triggered the shutdown. -/
def main_exit_code (noApi noUi dbFound tuiFound : Bool) (trig : Trigger) : ℕ :=
  if !noApi && !dbFound then 1
  else if !noUi && !tuiFound then 1
  else 0

/-! ## TUI environment (lines 135, 155-159) -/

/-- Line 135: the URL built from the CLI host and port arguments,
computed before and independently of the `--no-api` branch. -/
def api_url (host port : String) : String :=
  "http://" ++ host ++ ":" ++ port

/-- Lines 156-159: copy the inherited environment, set HOMELAB_API_URL
to the built URL, and set HOMELAB_REFRESH_SECONDS only when the
`--refresh-seconds` flag was supplied. -/
def tui_env (inherited : String → Option String) (host port : String)
    (refresh : Option String) : String → Option String :=
  fun k =>
    if k = "HOMELAB_REFRESH_SECONDS" then
      match refresh with
      | some r => some r
      | none => inherited k
    else if k = "HOMELAB_API_URL" then some (api_url host port)
    else inherited k

/-! ## Theorems -/

/-- Claim C1: in every shutdown, whatever handle states the triggering
condition left behind, the terminate action on the UI (taken exactly
when the UI is present and still running, skipped otherwise) comes
strictly before any terminate action on the API: the action list is
always a sublist of the canonical UI-first order. In particular a
shutdown triggered by the API exiting on its own still handles the UI
first, the terminate on the already-exited API being skipped. -/
theorem shutdown_order_ui_before_api :
    (∀ tui api : Option (Option Int),
      (shutdown_seq tui api).Sublist
        [ShutEv.termTui, ShutEv.termApi, ShutEv.cancelTasks, ShutEv.allDone]) ∧
    shutdown_seq (some none) (some (some 0)) =
      [ShutEv.termTui, ShutEv.cancelTasks, ShutEv.allDone] := by
  constructor
  · intro tui api
    rcases tui with _ | (_ | c) <;> rcases api with _ | (_ | d) <;>
      simp [shutdown_seq]
  · rfl

/-- Claim C2, counterexample: with the API disabled and the UI enabled,
the code suspends only on the UI exit condition; the stop request is
not among the awaited conditions, though the claim requires it in
every configuration. -/
theorem single_role_wait_omits_stop :
    WaitCond.stopReq ∈ claimed_wait_conditions true false ∧
    WaitCond.stopReq ∉ wait_conditions true false ∧
    wait_conditions true false ≠ claimed_wait_conditions true false := by
  decide

/-- Claim C2, amended: with both roles enabled the Supervisor suspends
on one wait-condition per child plus the stop condition; with both
roles disabled it blocks solely on the stop condition; with exactly
one role enabled it awaits only that role's exit condition, and the
stop request is not awaited in those configurations. -/
theorem wait_conditions_by_config :
    wait_conditions false false =
      [WaitCond.apiExit, WaitCond.tuiExit, WaitCond.stopReq] ∧
    wait_conditions true true = [WaitCond.stopReq] ∧
    wait_conditions true false = [WaitCond.tuiExit] ∧
    wait_conditions false true = [WaitCond.apiExit] := by
  decide

/-- Claim C8: `pipe_stream` writes each line of the stream to the sink
exactly once and in source order (the write list is the elementwise
image of the line list), and on the stream a, b, c it makes exactly
three writes, in that order. -/
theorem pipe_stream_exact_once_in_order :
    (∀ lines : List String,
      pipe_stream lines = lines.map (fun l => rstrip_py l ++ "\n")) ∧
    pipe_stream ["a", "b", "c"] = ["a\n", "b\n", "c\n"] := by
  constructor
  · intro lines
    induction lines with
    | nil => rfl
    | cons l ls ih => simp [pipe_stream, ih]
  · decide

/-- Claim C3, counterexample: on a still-running process that ignores
SIGTERM for the whole grace period, `terminate_process` sends the
termination request, times out, issues the kill, and returns at once:
its trace contains no wait after the kill and the handle still records
no exit status when the call returns, so the process has not been
observed to stop running, contrary to the claim. -/
theorem kill_not_awaited :
    terminate_process (PyProc.mk none true false 0) 5 =
      Except.ok ([TermEv.sentTerm, TermEv.killedAfterTimeout],
        PyProc.mk none true false 0) ∧
    (term_after (PyProc.mk none true false 0) 5).returncode = none := by
  constructor <;> rfl

/-- Claim C3, amended: on a still-running process with a valid pid,
`terminate_process` sends a graceful termination request and waits up
to the grace period; when the process exits within it, the exit status
is observed and recorded; when it does not, a forceful kill is issued
and the call returns immediately without waiting again, leaving the
exit status unobserved. -/
theorem terminate_process_behavior (p : PyProc) (grace : ℚ)
    (hrun : p.returncode = none) (hpid : p.pidValid = true) :
    (p.respondsToTerm = true →
      terminate_process p grace =
        Except.ok ([TermEv.sentTerm, TermEv.waitedExit p.exitCode],
          { p with returncode := some p.exitCode })) ∧
    (p.respondsToTerm = false →
      terminate_process p grace =
        Except.ok ([TermEv.sentTerm, TermEv.killedAfterTimeout], p)) := by
  constructor <;> intro hresp <;>
    simp [terminate_process, py_terminate, hrun, hpid, hresp]

/-- Witness for the amended C3 theorem at a concrete responsive
process. -/
theorem terminate_process_behavior_witness :
    terminate_process (PyProc.mk none true true 7) 2 =
      Except.ok ([TermEv.sentTerm, TermEv.waitedExit 7],
        PyProc.mk (some 7) true true 7) :=
  (terminate_process_behavior (PyProc.mk none true true 7) 2 rfl rfl).1 rfl

/-- Claim C4: `terminate_process` never raises; on a handle that
already records an exit status it is a pure no-op that leaves the
handle unchanged; when the pid is already gone the
`ProcessLookupError` from the termination signal is swallowed and the
handle is left unchanged; and a second call right after a first never
alters the exit status the first call left behind. -/
theorem terminate_idempotent_no_raise (p : PyProc) (g : ℚ) :
    term_ok (terminate_process p g) = true ∧
    (∀ c : Int, p.returncode = some c →
      terminate_process p g = Except.ok ([TermEv.alreadyExited], p)) ∧
    (p.returncode = none → p.pidValid = false →
      terminate_process p g =
        Except.ok ([TermEv.sentTerm, TermEv.lookupFailed], p)) ∧
    (term_after (term_after p g) g).returncode = (term_after p g).returncode := by
  rcases p with ⟨rc, pv, rt, ec⟩
  rcases rc with _ | c <;> cases pv <;> cases rt <;>
    simp [terminate_process, py_terminate, term_after, term_ok]

/-- Witness for C4 at a concrete already-exited process. -/
theorem terminate_idempotent_no_raise_witness :
    terminate_process (PyProc.mk (some 0) true true 0) 1 =
      Except.ok ([TermEv.alreadyExited], PyProc.mk (some 0) true true 0) :=
  (terminate_idempotent_no_raise (PyProc.mk (some 0) true true 0) 1).2.1 0 rfl

/-- Inserting the stop-signal event anywhere in a trace does not change
whether some spawn happens after the wait loop is entered, because the
signal handler only sets the stop flag. -/
theorem deliver_sig_spawn_after_wait :
    ∀ (es : List Ev) (sig : Option ℕ) (b : Bool),
      spawn_after_wait b (deliver_sig sig es) = spawn_after_wait b es := by
  intro es
  induction es with
  | nil => intro sig b; rcases sig with _ | (_ | k) <;> rfl
  | cons e es ih =>
    intro sig b
    rcases sig with _ | (_ | k)
    · rfl
    · rfl
    · cases e <;> simp [deliver_sig, spawn_after_wait, ih]

/-- Claim C5, counterexample: deliver the stop signal at the first
await point of a run with both roles enabled; the trace then sets the
stop flag before any spawn, and both children are still spawned
afterwards, so a spawn does happen after the stop-requested
transition. -/
theorem spawn_after_stop_possible :
    spawn_after_stop false (run_trace false false true (some 0)) = true ∧
    run_trace false false true (some 0) =
      [Ev.sigStop, Ev.spawnApi, Ev.probeApi true, Ev.spawnTui, Ev.enterWait] := by
  decide

/-- Claim C5, amended: spawning is not gated on the stop flag, so a
stop request delivered during startup does not prevent the remaining
spawns; what holds is that every spawn belongs to the startup phase:
in every run, whatever the configuration, probe outcome and signal
arrival point, no spawn event occurs after the wait loop has been
entered. -/
theorem no_spawn_after_wait_loop :
    ∀ (noApi noUi probeOk : Bool) (sig : Option ℕ),
      spawn_after_wait false (run_trace noApi noUi probeOk sig) = false := by
  intro na nu pu sig
  unfold run_trace
  rw [deliver_sig_spawn_after_wait]
  cases na <;> cases nu <;> cases pu <;> decide

/-- Reindexing step for the polling loop: when the condition fails at
the current poll time, the polls reachable after one sleep are exactly
the later polls of the original schedule. -/
theorem exists_poll_shift (P : ℚ → Prop) (now interval : ℚ) (f : ℕ)
    (h0 : ¬ P now) :
    (∃ k : ℕ, k < f ∧ P (now + interval + (k : ℚ) * interval)) ↔
    (∃ k : ℕ, k < f + 1 ∧ P (now + (k : ℚ) * interval)) := by
  constructor
  · rintro ⟨k, hk, hp⟩
    refine ⟨k + 1, by omega, ?_⟩
    have he : now + ((k + 1 : ℕ) : ℚ) * interval =
        now + interval + (k : ℚ) * interval := by push_cast; ring
    rw [he]
    exact hp
  · rintro ⟨k, hk, hp⟩
    cases k with
    | zero =>
      simp only [Nat.cast_zero, zero_mul, add_zero] at hp
      exact absurd hp h0
    | succ k =>
      refine ⟨k, by omega, ?_⟩
      have he : now + ((k + 1 : ℕ) : ℚ) * interval =
          now + interval + (k : ℚ) * interval := by push_cast; ring
      rw [he] at hp
      exact hp

/-- The polling loop returns true exactly when some poll within fuel
range happens strictly before the deadline and observes a 2xx
response. -/
theorem wait_for_http_true_iff (poll : ℚ → PollOutcome)
    (timeout interval : ℚ) (hi : 0 < interval) :
    ∀ (fuel : ℕ) (now : ℚ),
      wait_for_http poll timeout interval fuel now = true ↔
        ∃ k : ℕ, k < fuel ∧
          (now + (k : ℚ) * interval < timeout ∧
            poll2xx (poll (now + (k : ℚ) * interval)) = true) := by
  intro fuel
  induction fuel with
  | zero => intro now; simp [wait_for_http]
  | succ f ih =>
    intro now
    rw [wait_for_http]
    by_cases h : now < timeout
    · rw [if_pos h]
      cases hp : poll now with
      | ok s =>
        by_cases h2 : is2xx s = true
        · constructor
          · intro _
            refine ⟨0, Nat.succ_pos f, ?_, ?_⟩
            · simpa using h
            · simp [poll2xx, hp, h2]
          · intro _
            simp [h2]
        · have h2f : is2xx s = false := by
            revert h2; cases is2xx s <;> simp
          simp only [h2f, Bool.false_eq_true, if_false]
          exact (ih (now + interval)).trans
            (exists_poll_shift
              (fun t => t < timeout ∧ poll2xx (poll t) = true)
              now interval f (by simp [poll2xx, hp, h2f]))
      | urlError =>
        exact (ih (now + interval)).trans
          (exists_poll_shift
            (fun t => t < timeout ∧ poll2xx (poll t) = true)
            now interval f (by simp [poll2xx, hp]))
    · rw [if_neg h]
      constructor
      · intro hfalse
        exact absurd hfalse (by simp)
      · rintro ⟨k, _, hlt, _⟩
        exfalso
        have h1 : (0 : ℚ) ≤ (k : ℚ) * interval :=
          mul_nonneg (Nat.cast_nonneg k) hi.le
        exact h (by linarith)

/-- Claim C6: against an endpoint that starts returning 2xx after
exactly three polling intervals, the probe returns true whenever the
timeout is at least four intervals, and false whenever the timeout is
below three intervals; and in general, for any endpoint behaviour, it
returns true exactly when some poll made strictly before the deadline
observes a 2xx response. -/
theorem await_healthy_spec (timeout interval : ℚ) (fuel : ℕ)
    (hi : 0 < interval) (hf : 4 ≤ fuel) :
    (4 * interval ≤ timeout →
      wait_for_http (probeAfter3 interval) timeout interval fuel 0 = true) ∧
    (timeout < 3 * interval →
      wait_for_http (probeAfter3 interval) timeout interval fuel 0 = false) ∧
    (∀ poll : ℚ → PollOutcome,
      wait_for_http poll timeout interval fuel 0 = true ↔
        ∃ k : ℕ, k < fuel ∧ (k : ℚ) * interval < timeout ∧
          poll2xx (poll ((k : ℚ) * interval)) = true) := by
  refine ⟨?_, ?_, ?_⟩
  · intro ht
    rw [wait_for_http_true_iff (probeAfter3 interval) timeout interval hi fuel 0]
    refine ⟨3, by omega, ?_, ?_⟩
    · push_cast
      linarith
    · norm_num [probeAfter3, poll2xx, is2xx]
  · intro ht
    cases hres : wait_for_http (probeAfter3 interval) timeout interval fuel 0 with
    | false => rfl
    | true =>
      exfalso
      rw [wait_for_http_true_iff (probeAfter3 interval) timeout interval hi fuel 0]
        at hres
      obtain ⟨k, _, hlt, hp2⟩ := hres
      rw [zero_add] at hlt
      by_cases h3 : 3 * interval ≤ (k : ℚ) * interval
      · linarith
      · simp [probeAfter3, h3, poll2xx] at hp2
  · intro poll
    have hgen := wait_for_http_true_iff poll timeout interval hi fuel 0
    simpa using hgen

/-- Witness for C6 with interval 1, timeout 4 and fuel 4. -/
theorem await_healthy_spec_witness :
    wait_for_http (probeAfter3 1) 4 1 4 0 = true :=
  (await_healthy_spec 4 1 4 (by norm_num) (by norm_num)).1 (by norm_num)

/-- Claim C7: a URLError during one poll does not abort the polling
loop — the loop simply proceeds to the next poll after the sleep; and
a failed probe does not abort startup: for every configuration with
the UI enabled the UI is spawned whatever the probe outcome, and every
startup trace, healthy or not, ends by entering the wait phase rather
than aborting. -/
theorem probe_error_nonfatal :
    (∀ (poll : ℚ → PollOutcome) (timeout interval now : ℚ) (f : ℕ),
      now < timeout → poll now = PollOutcome.urlError →
      wait_for_http poll timeout interval (f + 1) now =
        wait_for_http poll timeout interval f (now + interval)) ∧
    (∀ noApi probeOk : Bool, Ev.spawnTui ∈ startup_events noApi false probeOk) ∧
    (∀ noApi noUi probeOk : Bool,
      (startup_events noApi noUi probeOk).getLast? = some Ev.enterWait) := by
  refine ⟨?_, ?_, ?_⟩
  · intro poll timeout interval now f h hp
    rw [wait_for_http, if_pos h, hp]
  · intro na pu
    cases na <;> cases pu <;> decide
  · intro na nu pu
    cases na <;> cases nu <;> cases pu <;> decide

/-- Witness for C7: a concrete refused poll leaves the loop equal to
its own continuation. -/
theorem probe_error_nonfatal_witness :
    wait_for_http (fun _ => PollOutcome.urlError) 1 1 1 0 =
      wait_for_http (fun _ => PollOutcome.urlError) 1 1 0 (0 + 1) :=
  probe_error_nonfatal.1 (fun _ => PollOutcome.urlError) 1 1 0 0 (by norm_num) rfl

/-- Claim C9: the orchestrator exits 0 after a run in which both
enabled roles had their interpreters, whatever triggered the shutdown
(in particular after a clean signal-triggered one), and exits with the
non-zero status 1 when an enabled role's venv interpreter cannot be
located before spawning. -/
theorem exit_code_spec (na nu : Bool) (trig : Trigger) :
    main_exit_code na nu true true trig = 0 ∧
    (na = false → ∀ (tf : Bool) (trig2 : Trigger),
      main_exit_code na nu false tf trig2 = 1) ∧
    (nu = false → ∀ (df : Bool) (trig2 : Trigger),
      main_exit_code na nu df false trig2 = 1) := by
  refine ⟨?_, ?_, ?_⟩
  · cases na <;> cases nu <;> rfl
  · intro h tf trig2; subst h; cases tf <;> rfl
  · intro h df trig2; subst h; cases na <;> cases df <;> rfl

/-- Witness for C9: API enabled, its interpreter missing, exit 1. -/
theorem exit_code_spec_witness :
    main_exit_code false false false true Trigger.apiExited = 1 :=
  (exit_code_spec false false Trigger.externalSignal).2.1 rfl true Trigger.apiExited

/-- Claim C10: whenever the UI role is enabled its environment maps
HOMELAB_API_URL to the URL built from the CLI host and port — the
`tui_env` construction does not consult the `--no-api` flag, and the
UI is spawned for either value of that flag, so this holds in
particular when the API role is disabled; and HOMELAB_REFRESH_SECONDS
is added only when the `--refresh-seconds` flag was supplied: without
it the inherited binding is passed through untouched, with it the
supplied value is set. -/
theorem tui_env_spec (inherited : String → Option String)
    (host port : String) (refresh : Option String) (noApi probeOk : Bool) :
    tui_env inherited host port refresh "HOMELAB_API_URL" =
      some (api_url host port) ∧
    (refresh = none →
      tui_env inherited host port refresh "HOMELAB_REFRESH_SECONDS" =
        inherited "HOMELAB_REFRESH_SECONDS") ∧
    (∀ r, refresh = some r →
      tui_env inherited host port refresh "HOMELAB_REFRESH_SECONDS" = some r) ∧
    Ev.spawnTui ∈ startup_events noApi false probeOk := by
  refine ⟨?_, ?_, ?_, ?_⟩
  · simp [tui_env]
  · intro h; subst h; simp [tui_env]
  · intro r h; subst h; simp [tui_env]
  · cases noApi <;> cases probeOk <;> decide

/-- Witness for C10: with no refresh flag, the UI environment of a
concrete run maps HOMELAB_REFRESH_SECONDS to the inherited binding,
here absent. -/
theorem tui_env_spec_witness :
    tui_env (fun _ => none) "127.0.0.1" "8000" none "HOMELAB_REFRESH_SECONDS" =
      none :=
  (tui_env_spec (fun _ => none) "127.0.0.1" "8000" none true true).2.1 rfl

end HomelabRun
